import Mathlib

/-!
Shallow embedding of the quota/entitlement engine of the image-generation
chat bot (src/bot.py, src/db.py).

The relational store (tables `users` and `daily_usage`) together with the
store clock (`CURRENT_DATE`) is modelled as a state record `DBState`.
Each SQL statement the Python code issues becomes one primitive on that
state; each Python coroutine of the core becomes a state-passing Lean
function composed from those primitives, translated branch by branch.
-/

/-- The two tables created by `init_db` plus the store clock.
`users` maps a telegram id to the row's `generation_tokens` column
(`none` = no row; the other columns are informational only);
`dailyUsage` maps `(telegram_id, date)` to the row's `used` column
(`none` = no row); `today` is the value of `CURRENT_DATE`. -/
structure DBState where
  users : Int → Option Int
  dailyUsage : Int → Int → Option Int
  today : Int

/-- `FREE_DAILY_LIMIT = 1` (bot.py line 32). -/
def FREE_DAILY_LIMIT : Int := 1

/-- `SELECT used FROM daily_usage WHERE telegram_id = $1 AND date = CURRENT_DATE`:
a read; the state comes back unchanged. -/
def fetchrowDailyUsed (s : DBState) (telegram_id : Int) : Option Int × DBState :=
  (s.dailyUsage telegram_id s.today, s)

/-- `SELECT generation_tokens FROM users WHERE telegram_id = $1`:
a read; the state comes back unchanged. -/
def fetchrowUserTokens (s : DBState) (telegram_id : Int) : Option Int × DBState :=
  (s.users telegram_id, s)

/-- `INSERT INTO daily_usage (telegram_id, date, used) VALUES ($1, CURRENT_DATE, 1)
ON CONFLICT (telegram_id, date) DO UPDATE SET used = daily_usage.used + 1`:
one atomic upsert on the row `(telegram_id, CURRENT_DATE)`. -/
def execUpsertDailyUsed (s : DBState) (telegram_id : Int) : DBState :=
  { s with dailyUsage := fun u d =>
      if u = telegram_id ∧ d = s.today then
        match s.dailyUsage telegram_id s.today with
        | none => some 1
        | some used => some (used + 1)
      else s.dailyUsage u d }

/-- `UPDATE users SET generation_tokens = generation_tokens - 1 WHERE telegram_id = $1`:
affects the matching row when present, a no-op when absent. -/
def execDecTokens (s : DBState) (telegram_id : Int) : DBState :=
  { s with users := fun u =>
      if u = telegram_id then (s.users u).map (fun t => t - 1) else s.users u }

/-- `UPDATE users SET generation_tokens = generation_tokens + $1 WHERE telegram_id = $2`. -/
def execAddTokens (s : DBState) (telegram_id amount : Int) : DBState :=
  { s with users := fun u =>
      if u = telegram_id then (s.users u).map (fun t => t + amount) else s.users u }

/-- `UPDATE users SET generation_tokens = generation_tokens - $1 WHERE telegram_id = $2`. -/
def execSubTokens (s : DBState) (telegram_id amount : Int) : DBState :=
  { s with users := fun u =>
      if u = telegram_id then (s.users u).map (fun t => t - amount) else s.users u }

/-- `INSERT INTO users (telegram_id, username, created_at) VALUES ($1, $2, CURRENT_DATE)
ON CONFLICT (telegram_id) DO NOTHING` with `generation_tokens INTEGER DEFAULT 0`. -/
def execInsertUser (s : DBState) (telegram_id : Int) : DBState :=
  match s.users telegram_id with
  | some _ => s
  | none => { s with users := fun u => if u = telegram_id then some 0 else s.users u }

/-- bot.py `register_user` (lines 50-56). -/
def register_user (s : DBState) (telegram_id : Int) : DBState :=
  execInsertUser s telegram_id

/-- bot.py `get_balance` (lines 58-64):
`return row["generation_tokens"] if row else 0`. -/
def get_balance (s : DBState) (telegram_id : Int) : Int × DBState :=
  let r := fetchrowUserTokens s telegram_id
  match r.1 with
  | some t => (t, r.2)
  | none => (0, r.2)

/-- bot.py `can_generate` (lines 66-84): read today's `used` row; if it is
missing or below `FREE_DAILY_LIMIT` answer `"free"`; otherwise read the
`users` row and answer `"paid"` when it exists with positive tokens;
otherwise `none`. -/
def can_generate (s : DBState) (telegram_id : Int) : Option String × DBState :=
  let r := fetchrowDailyUsed s telegram_id
  match r.1 with
  | none => (some "free", r.2)
  | some used =>
    if used < FREE_DAILY_LIMIT then (some "free", r.2)
    else
      let r2 := fetchrowUserTokens r.2 telegram_id
      match r2.1 with
      | some t => if t > 0 then (some "paid", r2.2) else (none, r2.2)
      | none => (none, r2.2)

/-- bot.py `commit_generation` (lines 106-121): `if gen_type == "free"` run the
daily-usage upsert, `elif gen_type == "paid"` run the unconditional token
decrement; there is no `else` branch, so any other value falls through. -/
def commit_generation (s : DBState) (telegram_id : Int) (gen_type : String) : DBState :=
  if gen_type = "free" then execUpsertDailyUsed s telegram_id
  else if gen_type = "paid" then execDecTokens s telegram_id
  else s

/-- Observable outcomes of the admin `add_tokens` handler: the three distinct
chat replies for bad parameters, unknown user, and success. -/
inductive AdminResult where
  | Ok : AdminResult
  | UserNotFound : AdminResult
  | InvalidParams : AdminResult
  deriving DecidableEq

/-- bot.py `add_tokens` handler, validation and DB core (lines 586-608):
reject `tokens <= 0`, fetch the user row, report not-found without touching
the store, otherwise add the tokens. -/
def add_tokens (s : DBState) (target_id tokens : Int) : AdminResult × DBState :=
  if tokens ≤ 0 then (AdminResult.InvalidParams, s)
  else
    let r := fetchrowUserTokens s target_id
    match r.1 with
    | none => (AdminResult.UserNotFound, r.2)
    | some _ => (AdminResult.Ok, execAddTokens r.2 target_id tokens)

/-- bot.py `remove_tokens` (lines 675-707): returns a single `Bool`; `False`
for `amount <= 0`, for a missing user row, and for an insufficient balance,
`True` after subtracting `amount`. -/
def remove_tokens (s : DBState) (telegram_id amount : Int) : Bool × DBState :=
  if amount ≤ 0 then (false, s)
  else
    let r := fetchrowUserTokens s telegram_id
    match r.1 with
    | none => (false, r.2)
    | some current =>
      if current < amount then (false, r.2)
      else (true, execSubTokens r.2 telegram_id amount)

/-- bot.py `generate_image` (lines 466-560), the entitlement-relevant flow:
resolve via `can_generate`; on `None` stop; otherwise run the external
generation call and then deliver the photo (both outcomes supplied as
parameters, an `Except.error` standing for a raised exception); only after
both succeed call `commit_generation`; an exception jumps to the handler,
which never commits. -/
def generate_image (s : DBState) (user_id : Int)
    (genCall : Except String String) (delivery : Except String Unit) : DBState :=
  let r := can_generate s user_id
  match r.1 with
  | none => r.2
  | some gt =>
    match genCall with
    | Except.error _ => r.2
    | Except.ok _ =>
      match delivery with
      | Except.error _ => r.2
      | Except.ok _ => commit_generation r.2 user_id gt

/-- `n` successive `commit_generation (gen_type := "free")` calls. -/
def commitFreeN (s : DBState) (telegram_id : Int) : Nat → DBState
  | 0 => s
  | n + 1 => commit_generation (commitFreeN s telegram_id n) telegram_id "free"

/-- The state after `n` successive `can_generate` calls. -/
def resolveN (s : DBState) (telegram_id : Int) : Nat → DBState
  | 0 => s
  | n + 1 => (can_generate (resolveN s telegram_id n) telegram_id).2

/-- The store right after `init_db`: both tables empty. -/
def initState : DBState :=
  { users := fun _ => none, dailyUsage := fun _ _ => none, today := 0 }

/-- A store holding one registered user, id 7, with 2 paid tokens and no
daily usage. -/
def sPoor : DBState :=
  { users := fun u => if u = 7 then some 2 else none
    dailyUsage := fun _ _ => none
    today := 0 }

-- ================== helper lemmas ==================

theorem can_generate_snd (s : DBState) (tid : Int) : (can_generate s tid).2 = s := by
  unfold can_generate fetchrowDailyUsed fetchrowUserTokens
  cases hd : s.dailyUsage tid s.today with
  | none => rfl
  | some used =>
    by_cases hu : used < FREE_DAILY_LIMIT
    · simp [hu]
    · simp [hu]
      cases hus : s.users tid with
      | none => rfl
      | some t => by_cases ht : t > 0 <;> simp [ht]

theorem commit_generation_today (s : DBState) (tid : Int) (gt : String) :
    (commit_generation s tid gt).today = s.today := by
  unfold commit_generation execUpsertDailyUsed execDecTokens
  split_ifs <;> rfl

theorem commit_free_at (s : DBState) (tid : Int) :
    (commit_generation s tid "free").dailyUsage tid s.today =
      some ((s.dailyUsage tid s.today).getD 0 + 1) := by
  unfold commit_generation execUpsertDailyUsed
  simp
  cases s.dailyUsage tid s.today <;> simp

theorem commitFreeN_today (s : DBState) (tid : Int) (n : Nat) :
    (commitFreeN s tid n).today = s.today := by
  induction n with
  | zero => rfl
  | succ n ih => rw [commitFreeN, commit_generation_today, ih]

theorem commitFreeN_count (s : DBState) (tid : Int)
    (h : s.dailyUsage tid s.today = none) (n : Nat) :
    ((commitFreeN s tid n).dailyUsage tid s.today).getD 0 = (n : Int) := by
  induction n with
  | zero => simp [commitFreeN, h]
  | succ n ih =>
    have ht := commitFreeN_today s tid n
    have hc := commit_free_at (commitFreeN s tid n) tid
    rw [ht] at hc
    rw [commitFreeN, hc]
    simp [ih]

-- ================== claim theorems ==================

/-- C1: for every user id, `can_generate` answers `"free"` exactly when
today's used count (a missing daily-usage row read as 0) is strictly below
`FREE_DAILY_LIMIT`, regardless of the paid balance; otherwise `"paid"`
exactly when the stored balance (`get_balance`) is strictly positive;
otherwise `none` (denied). -/
theorem can_generate_decision (s : DBState) (tid : Int) :
    (can_generate s tid).1 =
      (if (s.dailyUsage tid s.today).getD 0 < FREE_DAILY_LIMIT then some "free"
       else if 0 < (get_balance s tid).1 then some "paid"
       else none) := by
  unfold can_generate get_balance fetchrowDailyUsed fetchrowUserTokens
  cases hd : s.dailyUsage tid s.today with
  | none => simp [FREE_DAILY_LIMIT]
  | some used =>
    by_cases hu : used < FREE_DAILY_LIMIT
    · simp [hu]
    · simp [hu]
      cases hus : s.users tid with
      | none => simp
      | some t =>
        by_cases ht : t > 0 <;> simp [ht]

/-- C6: `can_generate` is a dry read: iterating it any number of times with
no intervening commit or admin operation leaves the store (every user's
`generation_tokens` and every `daily_usage.used`) identical. -/
theorem resolve_readonly (s : DBState) (tid : Int) (n : Nat) :
    resolveN s tid n = s := by
  induction n with
  | zero => rfl
  | succ n ih => rw [resolveN, ih, can_generate_snd]

/-- C10: `get_balance` returns 0 (not an error) when no `users` row exists,
returns the stored `generation_tokens` exactly for an existing user, and
leaves the store unchanged. -/
theorem get_balance_spec (s : DBState) (tid : Int) :
    (get_balance s tid).2 = s ∧
    (s.users tid = none → (get_balance s tid).1 = 0) ∧
    (∀ t, s.users tid = some t → (get_balance s tid).1 = t) := by
  unfold get_balance fetchrowUserTokens
  refine ⟨?_, ?_, ?_⟩
  · cases s.users tid <;> rfl
  · intro h; simp [h]
  · intro t h; simp [h]

theorem get_balance_spec_witness :
    (get_balance sPoor 7).1 = 2 ∧ (get_balance initState 7).1 = 0 :=
  ⟨(get_balance_spec sPoor 7).2.2 2 rfl, (get_balance_spec initState 7).2.1 rfl⟩

/-- C3: `commit_generation` with `"free"` is the atomic upsert: an absent
daily row for `(user, today)` is inserted as `used = 1`, a present one is
incremented by exactly 1; hence `n` such commits on one day starting from no
prior usage leave `used` equal to exactly `n`. -/
theorem commit_free_upsert (s s2 : DBState) (tid : Int) (n : Nat)
    (h : s.dailyUsage tid s.today = none) :
    (commit_generation s2 tid "free").dailyUsage tid s2.today =
      some ((s2.dailyUsage tid s2.today).getD 0 + 1) ∧
    ((commitFreeN s tid n).dailyUsage tid s.today).getD 0 = (n : Int) :=
  ⟨commit_free_at s2 tid, commitFreeN_count s tid h n⟩

theorem commit_free_upsert_witness :
    (commit_generation sPoor 7 "free").dailyUsage 7 sPoor.today =
      some ((sPoor.dailyUsage 7 sPoor.today).getD 0 + 1) ∧
    ((commitFreeN initState 7 3).dailyUsage 7 initState.today).getD 0 = ((3 : Nat) : Int) :=
  commit_free_upsert initState sPoor 7 3 rfl

/-- C4: `commit_generation` with `"paid"` decrements the existing user's
`generation_tokens` by exactly 1, with no balance check: the daily-usage
table is untouched, and from a balance of 0 the stored balance becomes
negative. -/
theorem commit_paid_spec (s : DBState) (tid t : Int) (h : s.users tid = some t) :
    (commit_generation s tid "paid").users tid = some (t - 1) ∧
    (commit_generation s tid "paid").dailyUsage = s.dailyUsage ∧
    (t = 0 → (get_balance (commit_generation s tid "paid") tid).1 < 0) := by
  unfold commit_generation execDecTokens
  refine ⟨?_, ?_, ?_⟩
  · simp [h]
  · simp
  · intro ht
    subst ht
    unfold get_balance fetchrowUserTokens
    simp [h]

theorem commit_paid_spec_witness :
    (commit_generation (register_user initState 0) 0 "paid").users 0 = some (0 - 1) ∧
    (commit_generation (register_user initState 0) 0 "paid").dailyUsage =
      (register_user initState 0).dailyUsage ∧
    ((0 : Int) = 0 →
      (get_balance (commit_generation (register_user initState 0) 0 "paid") 0).1 < 0) :=
  commit_paid_spec (register_user initState 0) 0 0 rfl

/-- C2 (counterexample): the claimed invariant `paid_balance >= 0` fails on
the code: register a fresh user (balance 0, a reachable state) and run
`commit_generation` with `"paid"`; the stored balance becomes negative. -/
theorem paid_commit_drives_balance_negative :
    (get_balance (commit_generation (register_user initState 0) 0 "paid") 0).1 < 0 := by
  decide

theorem get_balance_fst (s : DBState) (v : Int) :
    (get_balance s v).1 = (s.users v).getD 0 := by
  unfold get_balance fetchrowUserTokens
  cases s.users v <;> rfl

/-- C2 (amended): admin credit, admin debit, a `"free"` commit and
registration each preserve nonnegativity of every user's stored balance;
only `commit_generation` with `"paid"` can take a balance below zero. -/
theorem balance_nonneg_preserved (s : DBState) (tid amount v : Int)
    (hv : 0 ≤ (get_balance s v).1) :
    0 ≤ (get_balance (add_tokens s tid amount).2 v).1 ∧
    0 ≤ (get_balance (remove_tokens s tid amount).2 v).1 ∧
    0 ≤ (get_balance (commit_generation s tid "free") v).1 ∧
    0 ≤ (get_balance (register_user s tid) v).1 := by
  rw [get_balance_fst] at hv
  refine ⟨?_, ?_, ?_, ?_⟩ <;> rw [get_balance_fst]
  · unfold add_tokens execAddTokens fetchrowUserTokens
    by_cases ha : amount ≤ 0
    · simpa [ha] using hv
    · cases hus : s.users tid with
      | none => simpa [ha, hus] using hv
      | some t =>
        simp only [ha, hus, if_false]
        by_cases hveq : v = tid
        · subst hveq
          simp [hus] at hv
          simp [hus]
          omega
        · simpa [hveq] using hv
  · unfold remove_tokens execSubTokens fetchrowUserTokens
    by_cases ha : amount ≤ 0
    · simpa [ha] using hv
    · cases hus : s.users tid with
      | none => simpa [ha, hus] using hv
      | some t =>
        by_cases hlt : t < amount
        · simpa [ha, hus, hlt] using hv
        · simp only [ha, hus, hlt, if_false]
          by_cases hveq : v = tid
          · subst hveq
            simp [hus]
            omega
          · simpa [hveq] using hv
  · unfold commit_generation execUpsertDailyUsed
    simpa using hv
  · unfold register_user execInsertUser
    cases hus : s.users tid with
    | some t => simpa [hus] using hv
    | none =>
      by_cases hveq : v = tid
      · subst hveq
        simp [hus]
      · simpa [hus, hveq] using hv

theorem balance_nonneg_preserved_witness :
    0 ≤ (get_balance (add_tokens sPoor 7 1).2 7).1 ∧
    0 ≤ (get_balance (remove_tokens sPoor 7 1).2 7).1 ∧
    0 ≤ (get_balance (commit_generation sPoor 7 "free") 7).1 ∧
    0 ≤ (get_balance (register_user sPoor 7) 7).1 :=
  balance_nonneg_preserved sPoor 7 1 7 (by decide)

/-- C5 (counterexample): the three claimed outcomes are not distinguishable
to the caller: `remove_tokens` returns a single `Bool`, and with a positive
amount the missing-user call and the insufficient-balance call both come
back as the very same value `false`. -/
theorem debit_outcomes_indistinguishable :
    (0 : Int) < 5 ∧
    initState.users 7 = none ∧
    sPoor.users 7 = some 2 ∧ (2 : Int) < 5 ∧
    (remove_tokens initState 7 5).1 = false ∧
    (remove_tokens sPoor 7 5).1 = false ∧
    (remove_tokens initState 7 5).1 = (remove_tokens sPoor 7 5).1 := by
  decide

/-- C5 (amended): admin debit with a positive amount returns `false` and
mutates nothing when no user row exists or when the amount exceeds the
current balance (these two failures are reported identically), and otherwise
returns `true` having subtracted exactly `amount`, never taking the balance
below 0; daily usage and other users are untouched. -/
theorem remove_tokens_spec (s : DBState) (tid amount : Int) (h : 0 < amount) :
    (s.users tid = none → remove_tokens s tid amount = (false, s)) ∧
    (∀ t, s.users tid = some t → t < amount → remove_tokens s tid amount = (false, s)) ∧
    (∀ t, s.users tid = some t → amount ≤ t →
      (remove_tokens s tid amount).1 = true ∧
      (remove_tokens s tid amount).2.users tid = some (t - amount) ∧
      0 ≤ t - amount ∧
      (∀ u, u ≠ tid → (remove_tokens s tid amount).2.users u = s.users u) ∧
      (remove_tokens s tid amount).2.dailyUsage = s.dailyUsage) := by
  have ha : ¬amount ≤ 0 := by omega
  refine ⟨?_, ?_, ?_⟩
  · intro hus
    unfold remove_tokens fetchrowUserTokens
    simp [ha, hus]
  · intro t hus hlt
    unfold remove_tokens fetchrowUserTokens
    simp [ha, hus, hlt]
  · intro t hus hle
    have hlt : ¬t < amount := by omega
    unfold remove_tokens execSubTokens fetchrowUserTokens
    refine ⟨by simp [ha, hus, hlt], by simp [ha, hus, hlt], by omega, ?_, by simp [ha, hus, hlt]⟩
    intro u hu
    simp [ha, hus, hlt, hu]

theorem remove_tokens_spec_witness :
    (remove_tokens sPoor 7 2).1 = true ∧
    (remove_tokens sPoor 7 2).2.users 7 = some (2 - 2) :=
  ⟨((remove_tokens_spec sPoor 7 2 (by decide)).2.2 2 rfl (by decide)).1,
   ((remove_tokens_spec sPoor 7 2 (by decide)).2.2 2 rfl (by decide)).2.1⟩

/-- C7: `commit_generation` invoked with `"denied"` (or any value outside
free/paid) performs no mutation but also raises no error: the missing `else`
branch means the call returns normally, a silent success where the spec
demands a loud programming-error signal. -/
theorem commit_invalid_decision_silent :
    commit_generation sPoor 7 "denied" = sPoor ∧
    commit_generation initState 0 "Denied" = initState ∧
    commit_generation sPoor 7 "banana" = sPoor := by
  refine ⟨rfl, rfl, rfl⟩

/-- C8: admin credit with a positive amount returns the not-found reply and
leaves the store fully unchanged (no row created) when the user row is
missing; for an existing user it adds exactly `amount` to the balance and
reports success, touching no other user and no daily usage. -/
theorem add_tokens_spec (s : DBState) (tid amount : Int) (h : 0 < amount) :
    (s.users tid = none → add_tokens s tid amount = (AdminResult.UserNotFound, s)) ∧
    (∀ t, s.users tid = some t →
      (add_tokens s tid amount).1 = AdminResult.Ok ∧
      (add_tokens s tid amount).2.users tid = some (t + amount) ∧
      (∀ u, u ≠ tid → (add_tokens s tid amount).2.users u = s.users u) ∧
      (add_tokens s tid amount).2.dailyUsage = s.dailyUsage) := by
  have ha : ¬amount ≤ 0 := by omega
  refine ⟨?_, ?_⟩
  · intro hus
    unfold add_tokens fetchrowUserTokens
    simp [ha, hus]
  · intro t hus
    unfold add_tokens execAddTokens fetchrowUserTokens
    refine ⟨by simp [ha, hus], by simp [ha, hus], ?_, by simp [ha, hus]⟩
    intro u hu
    simp [ha, hus, hu]

theorem add_tokens_spec_witness :
    add_tokens initState 7 5 = (AdminResult.UserNotFound, initState) ∧
    (add_tokens sPoor 7 5).1 = AdminResult.Ok ∧
    (add_tokens sPoor 7 5).2.users 7 = some (2 + 5) :=
  ⟨(add_tokens_spec initState 7 5 (by decide)).1 rfl,
   ((add_tokens_spec sPoor 7 5 (by decide)).2 2 rfl).1,
   ((add_tokens_spec sPoor 7 5 (by decide)).2 2 rfl).2.1⟩

/-- C9: when the external generation call or the delivery of its result
fails (raises) after the resolve, `generate_image` never reaches
`commit_generation`: the store, hence every balance and every daily-usage
count, is exactly as before. -/
theorem generate_image_skips_commit (s : DBState) (uid : Int)
    (g : Except String String) (d : Except String Unit)
    (h : (∃ e, g = Except.error e) ∨ (∃ e, d = Except.error e)) :
    generate_image s uid g d = s := by
  rcases h with ⟨e, rfl⟩ | ⟨e, rfl⟩
  · unfold generate_image
    cases hr : (can_generate s uid).1 <;> simp [hr, can_generate_snd]
  · unfold generate_image
    cases hr : (can_generate s uid).1 <;> cases g <;> simp [hr, can_generate_snd]

theorem generate_image_skips_commit_witness :
    generate_image sPoor 7 (Except.error "replicate timeout") (Except.ok ()) = sPoor :=
  generate_image_skips_commit sPoor 7 (Except.error "replicate timeout") (Except.ok ())
    (Or.inl ⟨"replicate timeout", rfl⟩)
